import Mathlib

/-!
# Travel-planner API: activity scoring and forecast normalization

A shallow embedding of the core of the travel-planner repository:

* the data model from `src/types.ts` (`HourlyWeather`, `WeatherForecast`,
  `Activity`, `ActivityType`, the raw Open-Meteo payload shapes);
* the activity-scoring engine `ActivityService` (`rankActivities` and the four
  scorers `scoreSkiing`, `scoreSurfing`, `scoreIndoorSightseeing`,
  `scoreOutdoorSightseeing`, plus the `average` helper);
* the forecast normalizer `WeatherService.mapToForecast`.

JavaScript numbers are embedded as `ℚ` (every threshold and every input in the
claims is exactly representable; the scoring arithmetic adds only integer
contributions, embedded as `ℤ`).  A JavaScript value that can be `undefined`
(an out-of-bounds array read, a missing optional field) is embedded as an
`Option`, and the NaN that `0 / 0` produces in the surfing clear-sky ratio is
embedded as `none` as well, with comparisons against it false.  The `reason`
string each scorer builds by joining its reason fragments with a semicolon is
embedded as the ordered list of fragments (`reasons : List String`); the
fragments keep the source text minus the interpolated numeric values
(`toFixed` formatting), which carry no decision logic.
-/

namespace TravelPlanner

/-- Structure `City` from `src/types.ts` (optional fields `population`,
`admin1`). -/
structure City where
  id : ℤ
  name : String
  country : String
  countryCode : String
  latitude : ℚ
  longitude : ℚ
  timezone : String
  population : Option ℤ := none
  admin1 : Option String := none
deriving DecidableEq, Repr, Inhabited

/-- Structure `HourlyWeather` from `src/types.ts`: one hour of normalized
forecast data.  `snowDepth` is optional in the source (`snowDepth?: number`),
hence `Option`.  The unused optional `waveHeight` field is omitted (no code
reads it). -/
structure HourlyWeather where
  time : String
  temperature2m : ℚ
  windspeed10m : ℚ
  precipitation : ℚ
  weathercode : ℤ
  snowDepth : Option ℚ := none
deriving DecidableEq, Repr, Inhabited

/-- Structure `DailyWeather` from `src/types.ts`. -/
structure DailyWeather where
  date : String
  temperatureMax : ℚ
  temperatureMin : ℚ
  precipitationSum : ℚ
  windspeedMax : ℚ
  weathercode : ℤ
deriving DecidableEq, Repr, Inhabited

/-- Structure `WeatherForecast` from `src/types.ts`: the normalized forecast
consumed by the scoring engine. -/
structure WeatherForecast where
  city : City
  current : HourlyWeather
  hourly : List HourlyWeather
  daily : List DailyWeather
  timezone : String
deriving DecidableEq, Repr, Inhabited

/-- Type `ActivityType` from `src/types.ts`: the four fixed activity
identifiers. -/
inductive ActivityType where
  | SKIING
  | SURFING
  | INDOOR_SIGHTSEEING
  | OUTDOOR_SIGHTSEEING
deriving DecidableEq, Repr, Inhabited

/-- Structure `Activity` from `src/types.ts`.  `score` is `ℤ` (the scorers only
ever add integer contributions to an integer start, so the JS number is always
an integer); `reasons` embeds the `reason` string as its ordered fragment
list. -/
structure Activity where
  type : ActivityType
  name : String
  score : ℤ
  suitable : Bool
  reasons : List String
deriving DecidableEq, Repr, Inhabited

/-- Helper `ActivityService.average`: returns 0 for an empty list, otherwise
the arithmetic mean (`values.reduce((sum, v) => sum + v, 0) / values.length`). -/
def average (values : List ℚ) : ℚ :=
  if values.length = 0 then 0 else values.sum / values.length

/-- Final clamp every scorer applies: `Math.min(100, Math.max(0, score))`. -/
def clampScore (s : ℤ) : ℤ :=
  min 100 (max 0 s)

/-- Count of clear-to-partly-cloudy hours,
`hours.filter(h => h.weathercode <= 3).length` (shared by the surfing and
outdoor-sightseeing scorers). -/
def clearHoursCount (hours : List HourlyWeather) : ℕ :=
  (hours.filter (fun h => h.weathercode ≤ 3)).length

/-- Clear-sky ratio of the surfing scorer, `clearHours / hours.length`.  On the
empty window JavaScript computes `0 / 0 = NaN`; `none` embeds that NaN. -/
def surfClearRatio (hours : List HourlyWeather) : Option ℚ :=
  if hours.length = 0 then none
  else some ((clearHoursCount hours : ℚ) / (hours.length : ℚ))

/-- JavaScript `x >= y` where `x` may be NaN (`none`): any comparison with NaN
is false. -/
def jsGE (x : Option ℚ) (y : ℚ) : Bool :=
  match x with
  | none => false
  | some q => decide (y ≤ q)

/-- Clear-sky ratio of the outdoor-sightseeing scorer,
`clearHours / Math.max(hours.length, 1)` (guarded denominator, hence total). -/
def outdoorClearRatio (hours : List HourlyWeather) : ℚ :=
  (clearHoursCount hours : ℚ) / (max hours.length 1 : ℕ)

/-- Sequential score/reasons computation of `ActivityService.scoreSkiing`
before the final clamp, transcribed block by block. -/
def skiingRaw (hours : List HourlyWeather) : ℤ × List String :=
  let avgTemp := average (hours.map HourlyWeather.temperature2m)
  let avgWind := average (hours.map HourlyWeather.windspeed10m)
  let avgSnow := average (hours.map (fun h => h.snowDepth.getD 0))
  let totalPrecip := average (hours.map HourlyWeather.precipitation)
  -- temperature: acceptable −20°C to 2°C, ideal at or below −2°C
  let s1 : ℤ := if -20 ≤ avgTemp ∧ avgTemp ≤ 2 then (if avgTemp ≤ -2 then 35 else 20) else 0
  let r1 : List String :=
    [if -20 ≤ avgTemp ∧ avgTemp ≤ 2 then
       (if avgTemp ≤ -2 then "temperature °C is ideal for snow"
        else "temperature °C is marginal for snow")
     else if 2 < avgTemp then "temperature °C is too warm for skiing"
     else "temperature °C is too extreme for skiing"]
  -- snow depth
  let s2 := if 30 ≤ avgSnow then s1 + 40 else if 10 ≤ avgSnow then s1 + 20 else s1
  let r2 := r1 ++
    [if 30 ≤ avgSnow then "good snow depth (cm)"
     else if 10 ≤ avgSnow then "moderate snow depth (cm)"
     else "insufficient snow depth"]
  -- wind: dangerous > 60 km/h (subtraction floored at 0), calm ≤ 30 km/h
  let s3 := if 60 < avgWind then max 0 (s2 - 30) else if avgWind ≤ 30 then s2 + 15 else s2
  let r3 := if 60 < avgWind then r2 ++ ["high winds (km/h) are dangerous"]
    else if avgWind ≤ 30 then r2 ++ ["calm winds"] else r2
  -- light snowfall bonus
  let s4 := if 0 < totalPrecip ∧ totalPrecip ≤ 2 ∧ avgTemp < 0 then s3 + 10 else s3
  let r4 := if 0 < totalPrecip ∧ totalPrecip ≤ 2 ∧ avgTemp < 0 then
    r3 ++ ["light snowfall expected (fresh powder)"] else r3
  (s4, r4)

/-- Scorer `ActivityService.scoreSkiing`: clamp the raw score, derive
`suitable`. -/
def scoreSkiing (hours : List HourlyWeather) : Activity :=
  { type := ActivityType.SKIING
    name := "Skiing"
    score := clampScore (skiingRaw hours).1
    suitable := decide (60 ≤ clampScore (skiingRaw hours).1)
    reasons := (skiingRaw hours).2 }

/-- Temperature band of the surfing scorer (the first `if`/`else if`/`else`
chain of `scoreSurfing`): `[18, 32]` gives +30, otherwise `≥ 12` gives +15,
otherwise +0. -/
def surfTempContribution (avgTemp : ℚ) : ℤ :=
  if 18 ≤ avgTemp ∧ avgTemp ≤ 32 then 30
  else if 12 ≤ avgTemp then 15
  else 0

/-- Reason fragment the surfing temperature band pushes. -/
def surfTempReason (avgTemp : ℚ) : String :=
  if 18 ≤ avgTemp ∧ avgTemp ≤ 32 then "comfortable air temperature (°C)"
  else if 12 ≤ avgTemp then "cool but manageable temperature (°C)"
  else "cold temperature (°C) makes surfing uncomfortable"

/-- Sequential score/reasons computation of `ActivityService.scoreSurfing`
before the final clamp, transcribed block by block. -/
def surfingRaw (hours : List HourlyWeather) : ℤ × List String :=
  let avgTemp := average (hours.map HourlyWeather.temperature2m)
  let avgWind := average (hours.map HourlyWeather.windspeed10m)
  let avgPrecip := average (hours.map HourlyWeather.precipitation)
  -- temperature band
  let s1 : ℤ := surfTempContribution avgTemp
  let r1 : List String := [surfTempReason avgTemp]
  -- wind: [10, 30] ideal, (30, 50] strong, < 10 light, > 50 dangerous (floored)
  let s2 := if 10 ≤ avgWind ∧ avgWind ≤ 30 then s1 + 40
    else if 30 < avgWind ∧ avgWind ≤ 50 then s1 + 15
    else if avgWind < 10 then s1 + 20
    else max 0 (s1 - 20)
  let r2 := r1 ++
    [if 10 ≤ avgWind ∧ avgWind ≤ 30 then "ideal wind speed (km/h) for waves"
     else if 30 < avgWind ∧ avgWind ≤ 50 then "strong winds (km/h) — experienced surfers only"
     else if avgWind < 10 then "light winds (km/h) — flat water likely"
     else "dangerous winds (km/h)"]
  -- precipitation: the −10 for heavy rain is not floored before the final clamp
  let s3 := if avgPrecip < 1 then s2 + 20 else if avgPrecip < 5 then s2 + 10 else s2 - 10
  let r3 := r2 ++
    [if avgPrecip < 1 then "dry conditions"
     else if avgPrecip < 5 then "light rain expected"
     else "heavy rain expected"]
  -- clear-sky bonus: `clearHours / hours.length >= 0.6` (NaN on the empty window)
  let s4 := if jsGE (surfClearRatio hours) 0.6 then s3 + 10 else s3
  let r4 := if jsGE (surfClearRatio hours) 0.6 then r3 ++ ["mostly clear skies"] else r3
  (s4, r4)

/-- Scorer `ActivityService.scoreSurfing`: clamp the raw score, derive
`suitable`. -/
def scoreSurfing (hours : List HourlyWeather) : Activity :=
  { type := ActivityType.SURFING
    name := "Surfing"
    score := clampScore (surfingRaw hours).1
    suitable := decide (60 ≤ clampScore (surfingRaw hours).1)
    reasons := (surfingRaw hours).2 }

/-- Sequential score/reasons computation of
`ActivityService.scoreIndoorSightseeing` before the final clamp, transcribed
block by block.  The score starts at the neutral baseline 50. -/
def indoorRaw (hours : List HourlyWeather) : ℤ × List String :=
  let avgPrecip := average (hours.map HourlyWeather.precipitation)
  let avgTemp := average (hours.map HourlyWeather.temperature2m)
  let avgWind := average (hours.map HourlyWeather.windspeed10m)
  let s1 : ℤ := 50
  -- bad outdoor weather boosts the indoor score
  let s2 := if 5 ≤ avgPrecip then s1 + 30 else if 2 ≤ avgPrecip then s1 + 15 else s1
  let r2 : List String :=
    if 5 ≤ avgPrecip then ["heavy rain (mm/h) makes indoors appealing"]
    else if 2 ≤ avgPrecip then ["moderate rain expected"] else []
  let s3 := if avgTemp < 0 then s2 + 20 else if 35 < avgTemp then s2 + 15 else s2
  let r3 := r2 ++
    (if avgTemp < 0 then ["freezing temperatures (°C) favour indoor activities"]
     else if 35 < avgTemp then ["extreme heat (°C) — air-conditioned venues recommended"]
     else [])
  let s4 := if 60 < avgWind then s3 + 15 else s3
  let r4 := r3 ++ (if 60 < avgWind then ["strong winds make outdoor activities unsafe"] else [])
  -- great outdoor weather slightly reduces indoor appeal
  let s5 := if avgPrecip < 1 ∧ 18 ≤ avgTemp ∧ avgTemp ≤ 28 ∧ avgWind < 20 then s4 - 15 else s4
  let r5 := r4 ++
    (if avgPrecip < 1 ∧ 18 ≤ avgTemp ∧ avgTemp ≤ 28 ∧ avgWind < 20 then
      ["beautiful outdoor conditions — consider going outside!"] else [])
  -- generic fallback when no rule fired
  let r6 := if r5 = [] then
    ["moderate conditions — both indoor and outdoor activities viable"] else r5
  (s5, r6)

/-- Scorer `ActivityService.scoreIndoorSightseeing`: clamp the raw score,
derive `suitable`. -/
def scoreIndoorSightseeing (hours : List HourlyWeather) : Activity :=
  { type := ActivityType.INDOOR_SIGHTSEEING
    name := "Indoor Sightseeing"
    score := clampScore (indoorRaw hours).1
    suitable := decide (60 ≤ clampScore (indoorRaw hours).1)
    reasons := (indoorRaw hours).2 }

/-- Sequential score/reasons computation of
`ActivityService.scoreOutdoorSightseeing` before the final clamp, transcribed
block by block. -/
def outdoorRaw (hours : List HourlyWeather) : ℤ × List String :=
  let avgTemp := average (hours.map HourlyWeather.temperature2m)
  let avgWind := average (hours.map HourlyWeather.windspeed10m)
  let avgPrecip := average (hours.map HourlyWeather.precipitation)
  let clearRatio := outdoorClearRatio hours
  -- temperature: [15, 28] pleasant, [5, 15) cool, (28, 35] warm
  let s1 : ℤ := if 15 ≤ avgTemp ∧ avgTemp ≤ 28 then 35
    else if 5 ≤ avgTemp ∧ avgTemp < 15 then 20
    else if 28 < avgTemp ∧ avgTemp ≤ 35 then 15
    else 0
  let r1 : List String :=
    [if 15 ≤ avgTemp ∧ avgTemp ≤ 28 then "pleasant temperature (°C)"
     else if 5 ≤ avgTemp ∧ avgTemp < 15 then "cool but walkable (°C) — bring a jacket"
     else if 28 < avgTemp ∧ avgTemp ≤ 35 then "warm (°C) — stay hydrated"
     else "temperature (°C) is not ideal for outdoor sightseeing"]
  -- clear/partly cloudy weather
  let s2 := if 0.7 ≤ clearRatio then s1 + 30 else if 0.4 ≤ clearRatio then s1 + 15 else s1
  let r2 := r1 ++
    [if 0.7 ≤ clearRatio then "mostly clear skies"
     else if 0.4 ≤ clearRatio then "partly cloudy"
     else "overcast conditions"]
  -- precipitation (the −15 is not floored before the final clamp)
  let s3 := if avgPrecip < 0.5 then s2 + 25 else if avgPrecip < 2 then s2 + 10 else s2 - 15
  let r3 := r2 ++
    [if avgPrecip < 0.5 then "dry conditions"
     else if avgPrecip < 2 then "light rain possible — bring an umbrella"
     else "rain expected (mm/h)"]
  -- wind (the −20 is not floored before the final clamp)
  let s4 := if 50 < avgWind then s3 - 20 else if avgWind < 20 then s3 + 10 else s3
  let r4 := if 50 < avgWind then r3 ++ ["strong winds (km/h)"]
    else if avgWind < 20 then r3 ++ ["calm winds"] else r3
  (s4, r4)

/-- Scorer `ActivityService.scoreOutdoorSightseeing`: clamp the raw score,
derive `suitable`. -/
def scoreOutdoorSightseeing (hours : List HourlyWeather) : Activity :=
  { type := ActivityType.OUTDOOR_SIGHTSEEING
    name := "Outdoor Sightseeing"
    score := clampScore (outdoorRaw hours).1
    suitable := decide (60 ≤ clampScore (outdoorRaw hours).1)
    reasons := (outdoorRaw hours).2 }

/-- Stable descending insertion by score: the new element (which comes earlier
in the original list than everything already inserted) goes in front of the
first element whose score does not exceed it. -/
def insertDesc (a : Activity) : List Activity → List Activity
  | [] => [a]
  | b :: l => if b.score ≤ a.score then a :: b :: l else b :: insertDesc a l

/-- Sort `activities.sort((a, b) => b.score - a.score)`.
`Array.prototype.sort` is stable (ES2019) and the comparator is a consistent
total preorder on scores, so its output is the unique score-descending
reordering that keeps the original order among equal scores; stable insertion
sort (folding `insertDesc` from the right, so each element is inserted into
the sorted list of the elements after it) computes exactly that list. -/
def sortByScoreDesc (l : List Activity) : List Activity :=
  l.foldr insertDesc []

/-- Engine entry point `ActivityService.rankActivities`: score the
next-24-hour window (`forecast.hourly.slice(0, 24)`) with the four fixed
scorers in evaluation order, then sort by score descending.  Total: it raises
nothing for any `WeatherForecast`. -/
def rankActivities (forecast : WeatherForecast) : List Activity :=
  let next24h := forecast.hourly.take 24
  sortByScoreDesc
    [scoreSkiing next24h, scoreSurfing next24h,
     scoreIndoorSightseeing next24h, scoreOutdoorSightseeing next24h]

/-- Position of each activity type in the fixed evaluation order of
`rankActivities` (skiing, surfing, indoor, outdoor). -/
def evalIdx : ActivityType → ℕ
  | ActivityType.SKIING => 0
  | ActivityType.SURFING => 1
  | ActivityType.INDOOR_SIGHTSEEING => 2
  | ActivityType.OUTDOOR_SIGHTSEEING => 3

/-- Order that characterizes the stable descending sort: `a` ranks before `b`
when its score is strictly greater, or the scores tie and `a` comes earlier in
the evaluation order. -/
def rankedBefore (a b : Activity) : Prop :=
  b.score < a.score ∨ (a.score = b.score ∧ evalIdx a.type < evalIdx b.type)

/-- Shape `current` of `OpenMeteoForecastResponse` from `src/types.ts`. -/
structure OpenMeteoCurrent where
  time : String
  temperature_2m : ℚ
  windspeed_10m : ℚ
  precipitation : ℚ
  weathercode : ℤ
deriving DecidableEq, Repr, Inhabited

/-- Shape `hourly` of `OpenMeteoForecastResponse` from `src/types.ts`:
parallel per-field arrays index-aligned to `time`; `snow_depth` may be absent
(`snow_depth?: number[]`). -/
structure OpenMeteoHourlyArrays where
  time : List String
  temperature_2m : List ℚ
  windspeed_10m : List ℚ
  precipitation : List ℚ
  weathercode : List ℤ
  snow_depth : Option (List ℚ) := none
deriving DecidableEq, Repr, Inhabited

/-- Shape `daily` of `OpenMeteoForecastResponse` from `src/types.ts`. -/
structure OpenMeteoDailyArrays where
  time : List String
  temperature_2m_max : List ℚ
  temperature_2m_min : List ℚ
  precipitation_sum : List ℚ
  windspeed_10m_max : List ℚ
  weathercode : List ℤ
deriving DecidableEq, Repr, Inhabited

/-- Shape `OpenMeteoForecastResponse` from `src/types.ts` (the `_units`
records are not read by the normalizer and are omitted). -/
structure OpenMeteoForecastResponse where
  latitude : ℚ
  longitude : ℚ
  timezone : String
  current : OpenMeteoCurrent
  hourly : OpenMeteoHourlyArrays
  daily : OpenMeteoDailyArrays
deriving DecidableEq, Repr, Inhabited

/-- Runtime value of one hourly record as `mapToForecast` actually builds it:
each per-field array read `array[i]` is `undefined` (`none`) when `i` is out
of bounds, which the static TS type `HourlyWeather` does not reflect. -/
structure JsHourlyWeather where
  time : String
  temperature2m : Option ℚ
  windspeed10m : Option ℚ
  precipitation : Option ℚ
  weathercode : Option ℤ
  snowDepth : Option ℚ
deriving DecidableEq, Repr, Inhabited

/-- Runtime value of one daily record as `mapToForecast` actually builds it
(same out-of-bounds behaviour as `JsHourlyWeather`). -/
structure JsDailyWeather where
  date : String
  temperatureMax : Option ℚ
  temperatureMin : Option ℚ
  precipitationSum : Option ℚ
  windspeedMax : Option ℚ
  weathercode : Option ℤ
deriving DecidableEq, Repr, Inhabited

/-- Runtime value `mapToForecast` returns: the `WeatherForecast` shape with
the per-index field reads allowed to be `undefined`. -/
structure JsWeatherForecast where
  city : City
  current : HourlyWeather
  hourly : List JsHourlyWeather
  daily : List JsDailyWeather
  timezone : String
deriving DecidableEq, Repr, Inhabited

/-- Normalizer `WeatherService.mapToForecast`, transcribed with JavaScript
indexing semantics: it maps over the `time` arrays (`time.map((time, i) =>
...)`, embedded as a map over `List.enum`), reads every other per-field array
at the same index without any bounds or length validation (an out-of-bounds
read yields `undefined`, embedded as `none` via `getElem?`), and reads
`snow_depth?.[i]` as `undefined` when the array is absent or the index is out
of bounds.  It is total: no input makes it throw, and the repository defines
no `DataShapeError` anywhere. -/
def mapToForecast (city : City) (raw : OpenMeteoForecastResponse) : JsWeatherForecast :=
  let current : HourlyWeather :=
    { time := raw.current.time
      temperature2m := raw.current.temperature_2m
      windspeed10m := raw.current.windspeed_10m
      precipitation := raw.current.precipitation
      weathercode := raw.current.weathercode
      snowDepth := none }
  let hourly : List JsHourlyWeather :=
    raw.hourly.time.enum.map fun ti =>
      { time := ti.2
        temperature2m := raw.hourly.temperature_2m[ti.1]?
        windspeed10m := raw.hourly.windspeed_10m[ti.1]?
        precipitation := raw.hourly.precipitation[ti.1]?
        weathercode := raw.hourly.weathercode[ti.1]?
        snowDepth := raw.hourly.snow_depth.bind fun a => a[ti.1]? }
  let daily : List JsDailyWeather :=
    raw.daily.time.enum.map fun ti =>
      { date := ti.2
        temperatureMax := raw.daily.temperature_2m_max[ti.1]?
        temperatureMin := raw.daily.temperature_2m_min[ti.1]?
        precipitationSum := raw.daily.precipitation_sum[ti.1]?
        windspeedMax := raw.daily.windspeed_10m_max[ti.1]?
        weathercode := raw.daily.weathercode[ti.1]? }
  { city := city, current := current, hourly := hourly, daily := daily,
    timezone := raw.timezone }

/-! ### Concrete fixtures used by witnesses and counterexamples -/

/-- Test city fixture. -/
def testCity : City :=
  { id := 1, name := "Test City", country := "Test Country", countryCode := "TC",
    latitude := 0, longitude := 0, timezone := "UTC" }

/-- Mild-weather hour fixture. -/
def calmHour : HourlyWeather :=
  { time := "2026-01-01T00:00", temperature2m := 20, windspeed10m := 15,
    precipitation := 0, weathercode := 1, snowDepth := some 0 }

/-- Heavy-rain hour fixture: temperature 12 °C, wind 15 km/h, precipitation
10 mm. -/
def rainHour : HourlyWeather :=
  { time := "2026-01-01T00:00", temperature2m := 12, windspeed10m := 15,
    precipitation := 10, weathercode := 63, snowDepth := none }

/-- Ideal-skiing hour of the spec scenario: mean temperature −8 °C, wind
20 km/h, precipitation 0.5 mm, and snow depth 50 cm, i.e. 0.5 in the
metre-denominated `snowDepth` field that the normalizer fills unchanged from
the provider. -/
def skiScenarioHour : HourlyWeather :=
  { time := "2026-01-01T00:00", temperature2m := -8, windspeed10m := 20,
    precipitation := 0.5, weathercode := 71, snowDepth := some 0.5 }

/-- Full 24-hour ideal-skiing window. -/
def skiScenarioWindow : List HourlyWeather := List.replicate 24 skiScenarioHour

/-- Forecast fixture with an empty hourly sequence. -/
def emptyForecast : WeatherForecast :=
  { city := testCity, current := calmHour, hourly := [], daily := [],
    timezone := "UTC" }

/-- Forecast fixture with 25 hourly records (one beyond the analysis window). -/
def longForecast : WeatherForecast :=
  { city := testCity, current := calmHour,
    hourly := List.replicate 24 calmHour ++ [skiScenarioHour],
    daily := [], timezone := "UTC" }

/-- Forecast fixture sharing the first 24 hourly records of `longForecast` but
differing in the city, the current snapshot, the daily records, the timezone,
and the hourly records beyond index 23. -/
def shortForecast : WeatherForecast :=
  { city := { testCity with name := "Other City", id := 2 },
    current := skiScenarioHour,
    hourly := List.replicate 24 calmHour,
    daily := [{ date := "2026-01-01", temperatureMax := 22, temperatureMin := 15,
                precipitationSum := 0, windspeedMax := 20, weathercode := 1 }],
    timezone := "Africa/Johannesburg" }

/-- Malformed provider payload: the hourly `time` array has two entries but
`temperature_2m` has only one, violating the aligned-array invariant. -/
def malformedPayload : OpenMeteoForecastResponse :=
  { latitude := 0, longitude := 0, timezone := "UTC"
    current := { time := "2026-02-11T14:00", temperature_2m := 20, windspeed_10m := 10,
                 precipitation := 0, weathercode := 1 }
    hourly := { time := ["2026-02-11T00:00", "2026-02-11T01:00"]
                temperature_2m := [20]
                windspeed_10m := [10, 12]
                precipitation := [0, 0]
                weathercode := [1, 1]
                snow_depth := none }
    daily := { time := [], temperature_2m_max := [], temperature_2m_min := [],
               precipitation_sum := [], windspeed_10m_max := [], weathercode := [] } }

/-! ### Helper lemmas -/

/-- Averaging a singleton list gives its element. -/
theorem average_single (x : ℚ) : average [x] = x := by
  simp [average]

/-- Averaging a nonempty constant list gives the constant. -/
theorem average_replicate (n : ℕ) (hn : n ≠ 0) (x : ℚ) :
    average (List.replicate n x) = x := by
  simp [average, hn, List.sum_replicate, nsmul_eq_mul]

/-- Inserting into a list permutes consing onto it. -/
theorem insertDesc_perm (a : Activity) (l : List Activity) :
    List.Perm (insertDesc a l) (a :: l) := by
  induction l with
  | nil => exact List.Perm.refl _
  | cons b t ih =>
    unfold insertDesc
    split
    · exact List.Perm.refl _
    · exact (ih.cons b).trans (List.Perm.swap a b t)

/-- The sort is a permutation of its input. -/
theorem sortByScoreDesc_perm (l : List Activity) :
    List.Perm (sortByScoreDesc l) l := by
  induction l with
  | nil => exact List.Perm.refl _
  | cons a t ih =>
    exact (insertDesc_perm a (List.foldr insertDesc [] t)).trans (ih.cons a)

/-- Inserting an element that precedes every tying element of `l` in
evaluation order preserves the stable-order pairwise invariant. -/
theorem insertDesc_pairwise (a : Activity) (l : List Activity)
    (hl : List.Pairwise rankedBefore l)
    (ha : ∀ b ∈ l, a.score = b.score → evalIdx a.type < evalIdx b.type) :
    List.Pairwise rankedBefore (insertDesc a l) := by
  induction l with
  | nil => simp [insertDesc, rankedBefore]
  | cons b t ih =>
    rw [List.pairwise_cons] at hl
    obtain ⟨hbt, ht⟩ := hl
    unfold insertDesc
    split
    · rename_i h
      refine List.pairwise_cons.mpr ⟨?_, List.pairwise_cons.mpr ⟨hbt, ht⟩⟩
      intro c hc
      rcases List.mem_cons.mp hc with rfl | hc
      · rcases lt_or_eq_of_le h with hlt | heq
        · exact Or.inl hlt
        · exact Or.inr ⟨heq.symm, ha c (List.mem_cons_self c t) heq.symm⟩
      · rcases hbt c hc with hlt | ⟨heq, _⟩
        · exact Or.inl (lt_of_lt_of_le hlt h)
        · rcases lt_or_eq_of_le h with h2 | h2
          · exact Or.inl (heq ▸ h2)
          · exact Or.inr ⟨h2.symm.trans heq,
              ha c (List.mem_cons_of_mem b hc) (h2.symm.trans heq)⟩
    · rename_i h
      push_neg at h
      refine List.pairwise_cons.mpr ⟨?_,
        ih ht (fun c hc hce => ha c (List.mem_cons_of_mem b hc) hce)⟩
      intro x hx
      rcases List.mem_cons.mp ((insertDesc_perm a t).mem_iff.mp hx) with rfl | hx2
      · exact Or.inl h
      · exact hbt x hx2

/-- The ranked output satisfies the stable-order pairwise invariant: strict
score descent, or a tie resolved by the fixed evaluation order. -/
theorem rank_pairwise (f : WeatherForecast) :
    List.Pairwise rankedBefore (rankActivities f) := by
  simp only [rankActivities, sortByScoreDesc, List.foldr]
  apply insertDesc_pairwise
  · apply insertDesc_pairwise
    · apply insertDesc_pairwise
      · apply insertDesc_pairwise
        · exact List.Pairwise.nil
        · intro b hb; cases hb
      · intro b hb
        rcases List.mem_cons.mp ((insertDesc_perm _ _).mem_iff.mp hb) with rfl | hb2
        · intro _; exact Nat.lt_of_sub_eq_succ rfl
        · cases hb2
    · intro b hb
      rcases List.mem_cons.mp ((insertDesc_perm _ _).mem_iff.mp hb) with rfl | hb2
      · intro _; exact Nat.lt_of_sub_eq_succ rfl
      · rcases List.mem_cons.mp ((insertDesc_perm _ _).mem_iff.mp hb2) with rfl | hb3
        · intro _; exact Nat.lt_of_sub_eq_succ rfl
        · cases hb3
  · intro b hb
    rcases List.mem_cons.mp ((insertDesc_perm _ _).mem_iff.mp hb) with rfl | hb2
    · intro _; exact Nat.lt_of_sub_eq_succ rfl
    · rcases List.mem_cons.mp ((insertDesc_perm _ _).mem_iff.mp hb2) with rfl | hb3
      · intro _; exact Nat.lt_of_sub_eq_succ rfl
      · rcases List.mem_cons.mp ((insertDesc_perm _ _).mem_iff.mp hb3) with rfl | hb4
        · intro _; exact Nat.lt_of_sub_eq_succ rfl
        · cases hb4

/-- Every clamped score is in `[0, 100]` and `suitable` decides `score ≥ 60`. -/
theorem clamp_suitable_spec (s : ℤ) :
    0 ≤ clampScore s ∧ clampScore s ≤ 100 ∧
      (decide (60 ≤ clampScore s) = true ↔ 60 ≤ clampScore s) := by
  refine ⟨?_, ?_, by simp⟩ <;> unfold clampScore <;> omega

/-- Evaluation of the ranking on the empty-window forecast: scores are
indoor 50, surfing 40, skiing 35, outdoor 35, and the tie between skiing and
outdoor keeps the evaluation order. -/
theorem rank_empty_eval : rankActivities emptyForecast =
    [scoreIndoorSightseeing [], scoreSurfing [], scoreSkiing [],
     scoreOutdoorSightseeing []] := by
  have h1 : (scoreSkiing []).score = 35 := by decide
  have h2 : (scoreSurfing []).score = 40 := by decide
  have h3 : (scoreIndoorSightseeing []).score = 50 := by decide
  have h4 : (scoreOutdoorSightseeing []).score = 35 := by
    norm_num [scoreOutdoorSightseeing, outdoorRaw, average, outdoorClearRatio,
      clearHoursCount, clampScore]
  simp only [rankActivities, emptyForecast, List.take_nil, sortByScoreDesc, List.foldr]
  simp [insertDesc, h1, h2, h3, h4]

/-! ### Claim theorems -/

/-- Claim C1, amended (the claim as written fails: the normalizer signals no
`DataShapeError` — the repository defines none — and does not fail on a
malformed payload).  What the code does instead: `mapToForecast` is total, the
produced hourly list always has the length of the hourly `time` array, and
when a per-field array (here `temperature_2m`) is shorter than the `time`
array, the records beyond its end silently carry the undefined value (`none`)
in that field — the out-of-bounds read neither truncates nor raises. -/
theorem mapToForecast_oob_undefined (city : City) (raw : OpenMeteoForecastResponse)
    (i : ℕ) (hmis : raw.hourly.temperature_2m.length ≤ i)
    (hi : i < (mapToForecast city raw).hourly.length) :
    (mapToForecast city raw).hourly.length = raw.hourly.time.length ∧
    ((mapToForecast city raw).hourly.get ⟨i, hi⟩).temperature2m = none := by
  constructor
  · simp [mapToForecast, List.enum_length]
  · simp only [List.get_eq_getElem, mapToForecast, List.getElem_map, List.getElem_enum]
    exact List.getElem?_eq_none hmis

/-- Claim C1, witness: on the concrete malformed payload (hourly `time` of
length 2, `temperature_2m` of length 1), normalization succeeds and record 1
has an undefined temperature. -/
theorem mapToForecast_oob_undefined_witness :
    (mapToForecast testCity malformedPayload).hourly.length
        = malformedPayload.hourly.time.length ∧
    ((mapToForecast testCity malformedPayload).hourly.get ⟨1, by decide⟩).temperature2m
        = none :=
  mapToForecast_oob_undefined testCity malformedPayload 1 (by decide) (by decide)

/-- Claim C1, counterexample to the claim as stated: for the malformed payload
whose hourly `temperature_2m` array is shorter than its `time` array,
normalization does not fail with a `DataShapeError` (or at all) — it returns a
forecast whose second hourly record has the undefined temperature value. -/
theorem mapToForecast_mismatched_lengths_counterexample :
    (mapToForecast testCity malformedPayload).hourly.map JsHourlyWeather.temperature2m
      = [some 20, none] := by
  rfl

/-- Claim C2: for every `WeatherForecast` (the embedding of `rankActivities`
is total, so in particular it never raises), the result has exactly 4 entries
and its activity types are a permutation of the four fixed identifiers — all
four covered, no duplicates. -/
theorem rankActivities_four_distinct (f : WeatherForecast) :
    (rankActivities f).length = 4 ∧
    List.Perm ((rankActivities f).map Activity.type)
      [ActivityType.SKIING, ActivityType.SURFING, ActivityType.INDOOR_SIGHTSEEING,
       ActivityType.OUTDOOR_SIGHTSEEING] := by
  have hp := sortByScoreDesc_perm
    [scoreSkiing (f.hourly.take 24), scoreSurfing (f.hourly.take 24),
     scoreIndoorSightseeing (f.hourly.take 24), scoreOutdoorSightseeing (f.hourly.take 24)]
  constructor
  · simp only [rankActivities]; rw [hp.length_eq]; rfl
  · simp only [rankActivities]; exact hp.map Activity.type

/-- Claim C3: every `ActivityScore` returned by `rankActivities` has an
integer score (the `score` field is `ℤ` by construction) lying in `[0, 100]`,
and `suitable` is true exactly when the score is at least 60. -/
theorem rankActivities_scores_bounded (f : WeatherForecast) (a : Activity)
    (ha : a ∈ rankActivities f) :
    0 ≤ a.score ∧ a.score ≤ 100 ∧ (a.suitable = true ↔ 60 ≤ a.score) := by
  simp only [rankActivities] at ha
  have hmem := (sortByScoreDesc_perm _).mem_iff.mp ha
  simp only [List.mem_cons, List.not_mem_nil, or_false] at hmem
  rcases hmem with rfl | rfl | rfl | rfl
  · exact clamp_suitable_spec _
  · exact clamp_suitable_spec _
  · exact clamp_suitable_spec _
  · exact clamp_suitable_spec _

/-- Claim C3, witness: the indoor entry of the ranking of the empty-window
forecast satisfies the bounds. -/
theorem rankActivities_scores_bounded_witness :
    0 ≤ (scoreIndoorSightseeing []).score ∧
    (scoreIndoorSightseeing []).score ≤ 100 ∧
    ((scoreIndoorSightseeing []).suitable = true ↔ 60 ≤ (scoreIndoorSightseeing []).score) :=
  rankActivities_scores_bounded emptyForecast (scoreIndoorSightseeing [])
    (by rw [rank_empty_eval]; exact List.mem_cons_self _ _)

/-- Claim C4: the ranking is sorted by score descending (non-strict), and it
is the stable sort over the fixed evaluation order — between any two entries
with equal scores, the one evaluated earlier (skiing, surfing, indoor,
outdoor) comes first.  Determinism on identical inputs is immediate:
`rankActivities` is a function of the forecast value. -/
theorem rankActivities_sorted_stable (f : WeatherForecast) :
    List.Pairwise (fun a b => b.score ≤ a.score) (rankActivities f) ∧
    List.Pairwise rankedBefore (rankActivities f) := by
  refine ⟨(rank_pairwise f).imp ?_, rank_pairwise f⟩
  intro a b hab
  rcases hab with h | ⟨h, _⟩
  · exact le_of_lt h
  · exact le_of_eq h.symm

/-- Claim C5, amended (the claim as written fails for mean temperatures above
32: it asserts +0 there, but the `else if (avgTemp >= 12)` branch of the code
also catches every mean temperature above 32 and adds +15).  The correct
bands: +30 exactly on `[18, 32]`; +15 exactly on `[12, 18)` and on `(32, ∞)`;
+0, together with the cold/uncomfortable reason, exactly below 12. -/
theorem surfTemp_bands (t : ℚ) :
    (surfTempContribution t = 30 ↔ (18 ≤ t ∧ t ≤ 32)) ∧
    (surfTempContribution t = 15 ↔ ((12 ≤ t ∧ t < 18) ∨ 32 < t)) ∧
    ((surfTempContribution t = 0 ∧
      surfTempReason t = "cold temperature (°C) makes surfing uncomfortable") ↔ t < 12) := by
  unfold surfTempContribution surfTempReason
  split_ifs with h1 h2
  · refine ⟨⟨fun _ => h1, fun _ => rfl⟩, ?_, ?_⟩
    · constructor
      · intro h; norm_num at h
      · rintro (⟨h12, h18⟩ | h32) <;> [linarith [h1.1]; linarith [h1.2]]
    · constructor
      · rintro ⟨h, _⟩; norm_num at h
      · intro h; linarith [h1.1]
  · push_neg at h1
    refine ⟨?_, ⟨fun _ => ?_, fun _ => rfl⟩, ?_⟩
    · constructor
      · intro h; norm_num at h
      · rintro ⟨h18, h32⟩; exact absurd (h1 h18) (not_lt.mpr h32)
    · rcases lt_or_le t 18 with hlt | hge
      · exact Or.inl ⟨h2, hlt⟩
      · exact Or.inr (h1 hge)
    · constructor
      · rintro ⟨h, _⟩; norm_num at h
      · intro h; linarith
  · push_neg at h2
    refine ⟨?_, ?_, ⟨fun _ => h2, fun _ => ⟨rfl, rfl⟩⟩⟩
    · constructor
      · intro h; norm_num at h
      · rintro ⟨h18, _⟩; linarith
    · constructor
      · intro h; norm_num at h
      · rintro (⟨h12, _⟩ | h32) <;> linarith

/-- Claim C5, counterexample: at mean temperature 33 — which is above 32, so
the claim asserts a +0 contribution — the code contributes +15. -/
theorem surfTemp_above32_counterexample :
    surfTempContribution 33 = 15 ∧ ¬ ((33 : ℚ) ≤ 32) := by
  constructor
  · decide
  · norm_num

/-- Claim C6: evaluation of the code at the ideal-skiing scenario.  With every
window hour at mean temperature −8 °C, wind 20 km/h, precipitation 0.5 mm and
snow depth 50 cm — i.e. 0.5 in the metre-denominated `snowDepth` field the
normalizer passes through unchanged — the skiing score is 60, not ≥ 70 as the
claim (and the spec scenario) requires: the scorer compares the metre-valued
mean 0.5 against the centimetre thresholds 30 and 10 and takes the
insufficient-snow branch (+0 instead of +40).  `suitable` is still true
because 60 ≥ 60. -/
theorem skiing_snow_units_eval :
    (scoreSkiing skiScenarioWindow).score = 60 ∧
    (scoreSkiing skiScenarioWindow).suitable = true ∧
    ¬ (70 ≤ (scoreSkiing skiScenarioWindow).score) := by
  have hmap : ∀ (g : HourlyWeather → ℚ),
      skiScenarioWindow.map g = List.replicate 24 (g skiScenarioHour) := by
    intro g; simp [skiScenarioWindow, List.map_replicate]
  have hT := hmap HourlyWeather.temperature2m
  have hW := hmap HourlyWeather.windspeed10m
  have hS := hmap (fun h => h.snowDepth.getD 0)
  have hP := hmap HourlyWeather.precipitation
  have hraw : (skiingRaw skiScenarioWindow).1 = 60 := by
    simp only [skiingRaw, hT, hW, hS, hP, average_replicate 24 (by norm_num)]
    norm_num [skiScenarioHour]
  refine ⟨?_, ?_, ?_⟩
  · show clampScore (skiingRaw skiScenarioWindow).1 = 60
    rw [hraw]; rfl
  · show decide (60 ≤ clampScore (skiingRaw skiScenarioWindow).1) = true
    rw [hraw]; rfl
  · show ¬ (70 ≤ clampScore (skiingRaw skiScenarioWindow).1)
    rw [hraw]; decide

/-- Claim C7, amended (the claim as written fails for the surfing clear-sky
ratio: on the empty window the code computes `0 / 0 = NaN`, an undefined
value, not the defined default 0).  What does hold: `rankActivities` does not
fail on an empty hourly sequence (it returns its 4 entries), every arithmetic
mean — temperature, wind, precipitation, snow depth — defaults to 0, and the
outdoor clear-sky ratio defaults to 0 thanks to its guarded denominator; the
surfing ratio is NaN (`none`), and since every comparison with NaN is false
the clear-sky bonus does not apply, which coincides with the behaviour a 0
ratio would give. -/
theorem rank_empty_window_defaults (f : WeatherForecast) (hf : f.hourly = []) :
    (rankActivities f).length = 4 ∧
    average ((f.hourly.take 24).map HourlyWeather.temperature2m) = 0 ∧
    average ((f.hourly.take 24).map HourlyWeather.windspeed10m) = 0 ∧
    average ((f.hourly.take 24).map HourlyWeather.precipitation) = 0 ∧
    average ((f.hourly.take 24).map (fun h => h.snowDepth.getD 0)) = 0 ∧
    outdoorClearRatio (f.hourly.take 24) = 0 ∧
    surfClearRatio (f.hourly.take 24) = none ∧
    jsGE (surfClearRatio (f.hourly.take 24)) 0.6 = false := by
  refine ⟨?_, ?_, ?_, ?_, ?_, ?_, ?_, ?_⟩
  · simp only [rankActivities]
    rw [(sortByScoreDesc_perm _).length_eq]; rfl
  all_goals rw [hf]
  · simp [average]
  · simp [average]
  · simp [average]
  · simp [average]
  · norm_num [outdoorClearRatio, clearHoursCount]
  · simp [surfClearRatio]
  · simp [surfClearRatio, jsGE]

/-- Claim C7, witness: the empty-window forecast instantiates the amended
claim. -/
theorem rank_empty_window_defaults_witness :
    (rankActivities emptyForecast).length = 4 ∧
    average ((emptyForecast.hourly.take 24).map HourlyWeather.temperature2m) = 0 ∧
    average ((emptyForecast.hourly.take 24).map HourlyWeather.windspeed10m) = 0 ∧
    average ((emptyForecast.hourly.take 24).map HourlyWeather.precipitation) = 0 ∧
    average ((emptyForecast.hourly.take 24).map (fun h => h.snowDepth.getD 0)) = 0 ∧
    outdoorClearRatio (emptyForecast.hourly.take 24) = 0 ∧
    surfClearRatio (emptyForecast.hourly.take 24) = none ∧
    jsGE (surfClearRatio (emptyForecast.hourly.take 24)) 0.6 = false :=
  rank_empty_window_defaults emptyForecast rfl

/-- Claim C7, counterexample to the claim as stated: on the empty window the
surfing clear-sky ratio is the undefined NaN value (`none`), not the defined
default 0 the claim asserts for every aggregate. -/
theorem surfClearRatio_empty_counterexample :
    surfClearRatio [] = none ∧ (none : Option ℚ) ≠ some 0 := by
  constructor
  · decide
  · simp

/-- Claim C8: for every window whose mean precipitation is 10 mm, mean
temperature 12 °C and mean wind 15 km/h — the per-hour weather codes are
unconstrained, so every assignment consistent with those means is covered —
the indoor sightseeing score is at least 60 (it is exactly 80) and strictly
greater than the outdoor sightseeing score of the same window (which is at
most 45, whatever the clear-sky ratio). -/
theorem indoor_beats_outdoor_heavy_rain (hs : List HourlyWeather)
    (ht : average (hs.map HourlyWeather.temperature2m) = 12)
    (hw : average (hs.map HourlyWeather.windspeed10m) = 15)
    (hp : average (hs.map HourlyWeather.precipitation) = 10) :
    60 ≤ (scoreIndoorSightseeing hs).score ∧
    (scoreOutdoorSightseeing hs).score < (scoreIndoorSightseeing hs).score := by
  have hin : (indoorRaw hs).1 = 80 := by
    simp only [indoorRaw, ht, hw, hp]; norm_num
  have hout : (outdoorRaw hs).1 ≤ 45 := by
    simp only [outdoorRaw, ht, hw, hp]
    norm_num
    split_ifs <;> norm_num
  show 60 ≤ clampScore (indoorRaw hs).1 ∧
    clampScore (outdoorRaw hs).1 < clampScore (indoorRaw hs).1
  rw [hin]
  unfold clampScore
  omega

/-- Claim C8, witness: a one-hour window with temperature 12 °C, wind 15 km/h,
precipitation 10 mm realizes the hypotheses. -/
theorem indoor_beats_outdoor_heavy_rain_witness :
    60 ≤ (scoreIndoorSightseeing [rainHour]).score ∧
    (scoreOutdoorSightseeing [rainHour]).score < (scoreIndoorSightseeing [rainHour]).score :=
  indoor_beats_outdoor_heavy_rain [rainHour]
    (by simp [rainHour, average_single]) (by simp [rainHour, average_single])
    (by simp [rainHour, average_single])

/-- Claim C9: `rankActivities` reads nothing of the forecast but the leading
min(24, length) slice of the hourly sequence — two forecasts with the same
24-hour prefix rank identically, whatever their city, current snapshot, daily
records, timezone, or hourly records beyond index 23. -/
theorem rankActivities_window_only (f g : WeatherForecast)
    (h : f.hourly.take 24 = g.hourly.take 24) :
    rankActivities f = rankActivities g := by
  simp only [rankActivities, h]

/-- Claim C9, witness: a 25-hour forecast and a 24-hour forecast sharing the
same 24-hour prefix but differing in city, current snapshot, daily records,
timezone and the record at index 24 rank identically. -/
theorem rankActivities_window_only_witness :
    rankActivities longForecast = rankActivities shortForecast :=
  rankActivities_window_only longForecast shortForecast
    (by simp [longForecast, shortForecast])

/-- Claim C10: the indoor sightseeing score never drops below 35 (in
particular it is never 0): from the baseline 50, the only subtraction (−15
for great outdoor weather: precipitation < 1, temperature in [18, 28], wind
< 20) is mutually exclusive with each of the three additive rules
(precipitation ≥ 2, temperature < 0 or > 35, wind > 60), so the raw score is
either exactly 35 or at least 50, and the final clamp keeps it in `[35, 100]`. -/
theorem indoor_score_at_least_35 (hs : List HourlyWeather) :
    35 ≤ (scoreIndoorSightseeing hs).score := by
  show 35 ≤ clampScore (indoorRaw hs).1
  have h : 35 ≤ (indoorRaw hs).1 ∨ (50 ≤ (indoorRaw hs).1 ∧ (indoorRaw hs).1 ≤ 115) := by
    simp only [indoorRaw]
    split_ifs <;> norm_num
  unfold clampScore
  rcases h with h | ⟨h1, h2⟩ <;> omega

end TravelPlanner
